import Mathlib

/-!
Verification development for the Splunk pump (`pumps/splunk.go`).

We shallowly embed the Go source: the data model (`SplunkClient`,
`SplunkPumpConfig`, the analytics record), the constructor
`NewSplunkClient`, the request construction of `Send`, and the event
transformation / batch loop of `WriteData`.  External Go standard-library
calls (`url.Parse`, `tls.LoadX509KeyPair`) are modelled as explicit oracle
parameters gathered in a `GoEnv`; the process-global mutable cell
`http.DefaultClient.Transport` is modelled by explicit state passing of a
`GoHeapState`.
-/

namespace Splunk

/-- Go `time.Time`, reduced to the components relevant here: whole seconds
since the Unix epoch and a nanosecond remainder.  `Unix` discards the
nanoseconds, as Go's `time.Time.Unix` does. -/
structure Time where
  sec : Int
  nsec : Nat
deriving DecidableEq, Repr

/-- Go `(time.Time).Unix()`: integer Unix seconds. -/
def Time.Unix (t : Time) : Int := t.sec

/-- A dynamic Go value (`interface{}`) as it occurs in the Splunk event
maps: strings, machine integers, timestamps, and the untyped `nil`
returned by a map lookup on a missing key. -/
inductive Value where
  | str : String → Value
  | int : Int → Value
  | time : Time → Value
  | nil : Value
deriving DecidableEq, Repr

/-- `analytics.AnalyticsRecord`, restricted to the fields `splunk.go`
reads (the type itself lives outside this repository). -/
structure AnalyticsRecord where
  Method : String
  Path : String
  ResponseCode : Int
  APIKey : String
  TimeStamp : Time
  APIVersion : String
  APIName : String
  APIID : String
  OrgID : String
  OauthID : String
  RawRequest : String
  RequestTime : Int
  RawResponse : String
  IPAddress : String
deriving DecidableEq, Repr

/-- `defaultPath` constant of `splunk.go`. -/
def defaultPath : String := "/services/collector/event/1.0"

/-- `authHeaderName` constant of `splunk.go`. -/
def authHeaderName : String := "authorization"

/-- `authHeaderPrefix` constant of `splunk.go`. -/
def authHeaderPrefix : String := "Splunk "

/-- A parsed `net/url.URL`, reduced to the components the pump touches.
`NewSplunkClient` overwrites `path`; the other components ride along
unchanged. -/
structure URL where
  scheme : String
  host : String
  path : String
  rawQuery : String
deriving DecidableEq, Repr

/-- `crypto/tls.Config`, restricted to the fields `splunk.go` sets.
Certificates are opaque tokens (the result of `tls.LoadX509KeyPair`). -/
structure TLSConfig where
  insecureSkipVerify : Bool
  certificates : List String
  serverName : String
deriving DecidableEq, Repr

/-- `net/http.Transport`, restricted to the one field `splunk.go` sets. -/
structure Transport where
  tlsClientConfig : TLSConfig
deriving DecidableEq, Repr

/-- A `*http.Client` reference: either the process-global
`http.DefaultClient`, or a client owning its own transport (the latter is
expressible in Go but never produced by this source, which stores
`http.DefaultClient` on line 64). -/
inductive HttpClientRef where
  | defaultClient
  | owned : Transport → HttpClientRef
deriving DecidableEq, Repr

/-- The process-global mutable state `splunk.go` touches:
`http.DefaultClient.Transport` (initially `nil`, i.e. `none`). -/
structure GoHeapState where
  defaultTransport : Option Transport
deriving DecidableEq, Repr

/-- Errors returned by `NewSplunkClient`: the package-level
`errInvalidSettings`, an error from `url.Parse`, or an error from
`tls.LoadX509KeyPair`. -/
inductive GoError where
  | invalidSettings
  | urlError : String → GoError
  | tlsError : String → GoError
deriving DecidableEq, Repr

/-- Oracles for the external standard-library calls made by
`NewSplunkClient`: `url.Parse` and `tls.LoadX509KeyPair`. -/
structure GoEnv where
  urlParse : String → Except String URL
  loadX509KeyPair : String → String → Except String String

/-- `SplunkClient` struct of `splunk.go`.  The Go code stores
`CollectorURL` as the string `u.String()` after rewriting the path; we
keep the structured URL, which carries the same components. -/
structure SplunkClient where
  Token : String
  CollectorURL : URL
  TLSSkipVerify : Bool
  httpClient : HttpClientRef
deriving DecidableEq, Repr

/-- The TLS-configuration step of `NewSplunkClient` (`splunk.go` lines
49-57): start from `{InsecureSkipVerify: skipVerify}`; when verification
is on, load the certificate pair (propagating its error) and replace the
configuration by one holding the certificate and the server name. -/
def tlsSetup (env : GoEnv) (skipVerify : Bool) (certFile : String)
    (keyFile : String) (serverName : String) : Except GoError TLSConfig :=
  let tlsConfig : TLSConfig :=
    { insecureSkipVerify := skipVerify, certificates := [], serverName := "" }
  if !skipVerify then
    match env.loadX509KeyPair certFile keyFile with
    | Except.error e => Except.error (GoError.tlsError e)
    | Except.ok cert =>
      Except.ok { insecureSkipVerify := false, certificates := [cert],
                  serverName := serverName }
  else Except.ok tlsConfig

/-- `NewSplunkClient` (`splunk.go` lines 41-67), with the mutation of
`http.DefaultClient.Transport` (line 58) made explicit as state passing.
Returns the new global state together with either the constructor's error
or the initialized client. -/
def NewSplunkClient (env : GoEnv) (token : String) (collectorURL : String)
    (skipVerify : Bool) (certFile : String) (keyFile : String)
    (serverName : String) (s : GoHeapState) :
    GoHeapState × Except GoError SplunkClient :=
  if token = "" ∨ collectorURL = "" then
    (s, Except.error GoError.invalidSettings)
  else
    match env.urlParse collectorURL with
    | Except.error e => (s, Except.error (GoError.urlError e))
    | Except.ok u =>
      match tlsSetup env skipVerify certFile keyFile serverName with
      | Except.error e => (s, Except.error e)
      | Except.ok cfg =>
        ({ defaultTransport := some { tlsClientConfig := cfg } },
         Except.ok { Token := token, CollectorURL := { u with path := defaultPath },
                     TLSSkipVerify := false, httpClient := HttpClientRef.defaultClient })

/-- The transport a client's `httpClient` actually uses in a given global
state.  Every client constructed by `NewSplunkClient` stores
`http.DefaultClient`, so its transport is the shared default one. -/
def effectiveTransport (s : GoHeapState) (c : SplunkClient) : Option Transport :=
  match c.httpClient with
  | HttpClientRef.defaultClient => s.defaultTransport
  | HttpClientRef.owned t => some t

/-- `SplunkPumpConfig` struct of `splunk.go` (lines 98-108). -/
structure SplunkPumpConfig where
  CollectorToken : String
  CollectorURL : String
  SSLInsecureSkipVerify : Bool
  SSLCertFile : String
  SSLKeyFile : String
  SSLServerName : String
  ObfuscateAPIKeys : Bool
  ObfuscateAPIKeysLength : Int
  Fields : List String
deriving DecidableEq, Repr

/-- An event under construction: a Go `map[string]interface{}` represented
as an association list without duplicate keys (insertion order kept). -/
abbrev EventMap := List (String × Value)

/-- Go map assignment `event[field] = v`: overwrite the entry for an
existing key, otherwise append a new entry. -/
def insertEvent : EventMap → String → Value → EventMap
  | [], k, v => [(k, v)]
  | (k', v') :: rest, k, v =>
    if k' = k then (k, v) :: rest else (k', v') :: insertEvent rest k v

/-- Modelled from the spec: the field-name registry `mapping`, which
`WriteData` consults (`splunk.go` lines 158 and 171) but which is defined
outside the provided source.  Per the spec it is "a fixed registry mapping
field name → accessor over the current record", and §9 identifies it with
the default field set, so it maps each of the fourteen default field names
to the corresponding field of the current record. -/
def mapping (decoded : AnalyticsRecord) : EventMap :=
  [ ("method", Value.str decoded.Method)
  , ("path", Value.str decoded.Path)
  , ("response_code", Value.int decoded.ResponseCode)
  , ("api_key", Value.str decoded.APIKey)
  , ("time_stamp", Value.time decoded.TimeStamp)
  , ("api_version", Value.str decoded.APIVersion)
  , ("api_name", Value.str decoded.APIName)
  , ("api_id", Value.str decoded.APIID)
  , ("org_id", Value.str decoded.OrgID)
  , ("oauth_id", Value.str decoded.OauthID)
  , ("raw_request", Value.str decoded.RawRequest)
  , ("request_time", Value.int decoded.RequestTime)
  , ("raw_response", Value.str decoded.RawResponse)
  , ("ip_address", Value.str decoded.IPAddress) ]

/-- Go two-valued map read `_, ok := mapping[field]`. -/
def mappingHas (decoded : AnalyticsRecord) (field : String) : Bool :=
  ((mapping decoded).lookup field).isSome

/-- Go one-valued map read `mapping[field]`: the stored value, or the zero
value (`nil` for `interface{}`) when the key is absent. -/
def mappingGet (decoded : AnalyticsRecord) (field : String) : Value :=
  ((mapping decoded).lookup field).getD Value.nil

/-- The default event literal of `splunk.go` lines 176-191 (empty `Fields`
branch of `WriteData`). -/
def defaultEvent (decoded : AnalyticsRecord) : EventMap :=
  [ ("method", Value.str decoded.Method)
  , ("path", Value.str decoded.Path)
  , ("response_code", Value.int decoded.ResponseCode)
  , ("api_key", Value.str decoded.APIKey)
  , ("time_stamp", Value.time decoded.TimeStamp)
  , ("api_version", Value.str decoded.APIVersion)
  , ("api_name", Value.str decoded.APIName)
  , ("api_id", Value.str decoded.APIID)
  , ("org_id", Value.str decoded.OrgID)
  , ("oauth_id", Value.str decoded.OauthID)
  , ("raw_request", Value.str decoded.RawRequest)
  , ("request_time", Value.int decoded.RequestTime)
  , ("raw_response", Value.str decoded.RawResponse)
  , ("ip_address", Value.str decoded.IPAddress) ]

/-- One iteration of the field-projection loop of `WriteData`
(`splunk.go` lines 156-173), acting on the event built so far.

Fidelity notes, from the source:
* line 158 `if _, ok := mapping[field]; ok { continue }` skips the field
  when it IS present in the registry (the code comment announces the
  opposite);
* the redaction branch guards on `field == "api_key" &&
  p.config.ObfuscateAPIKeys`; its length expression reads the boolean
  flag `ObfuscateAPIKeys` where an `int` is required, which is ill-typed
  Go — we model the length by the configured `ObfuscateAPIKeysLength`
  field, a choice without consequence because the branch is unreachable:
  it requires `"api_key"` to be absent from the registry, and the
  registry contains `"api_key"`;
* line 171 assigns `mapping[field]`, the zero value `nil` when the field
  is absent from the registry. -/
def projectField (cfg : SplunkPumpConfig) (decoded : AnalyticsRecord)
    (event : EventMap) (field : String) : EventMap :=
  if mappingHas decoded field then
    event
  else if field = "api_key" ∧ cfg.ObfuscateAPIKeys then
    let apiKey := decoded.APIKey
    if (apiKey.length : Int) > cfg.ObfuscateAPIKeysLength then
      insertEvent event field
        (Value.str ("****" ++ apiKey.drop (apiKey.length - cfg.ObfuscateAPIKeysLength.toNat)))
    else event
  else
    insertEvent event field (mappingGet decoded field)

/-- The event transformation of `WriteData` (`splunk.go` lines 151-192):
one record plus the pump configuration to one wire event. -/
def buildEvent (cfg : SplunkPumpConfig) (decoded : AnalyticsRecord) : EventMap :=
  if cfg.Fields.length > 0 then
    cfg.Fields.foldl (projectField cfg decoded) []
  else
    defaultEvent decoded

/-- The JSON body `Send` marshals (`splunk.go` lines 71-76): the anonymous
wrapper struct with tags `json:"time"` and `json:"event"`.  Go's
`json.Marshal` renders struct fields in declaration order, so the wire
body is exactly `{"time": <t>, "event": <event>}`; we keep the marshalled
content structurally. -/
structure WireBody where
  time : Int
  event : EventMap
deriving DecidableEq, Repr

/-- The HTTP request `Send` constructs (`splunk.go` lines 80-86) before
handing it to `httpClient.Do`: method, target URL, headers added via
`req.Header.Add`, and the JSON body. -/
structure Request where
  method : String
  url : URL
  headers : List (String × String)
  body : WireBody
deriving DecidableEq, Repr

/-- Request construction of `SplunkClient.Send` (`splunk.go` lines 70-86).
On the values representable in our model, `json.Marshal` and
`http.NewRequest` cannot fail, so the construction is total; the actual
network call `httpClient.Do` stays outside the model. -/
def Send (c : SplunkClient) (event : EventMap) (ts : Time) : Request :=
  { method := "POST"
  , url := c.CollectorURL
  , headers := [(authHeaderName, authHeaderPrefix ++ c.Token)]
  , body := { time := ts.Unix, event := event } }

/-- One element of the `data []interface{}` batch handed to `WriteData`:
either an `analytics.AnalyticsRecord` or a value of some other dynamic
type (identified by its type name). -/
inductive BatchElem where
  | record : AnalyticsRecord → BatchElem
  | other : String → BatchElem
deriving DecidableEq, Repr

/-- One performed `Send` call (`splunk.go` line 194): the event, the
timestamp, and the outcome of the call, which `WriteData` discards. -/
abbrev Sent := EventMap × Time × Except String Unit

/-- The `Send` call with its discarded outcome, as performed for one
decoded record; `doSend` abstracts the transport layer's behavior. -/
def sentOf (cfg : SplunkPumpConfig) (doSend : EventMap → Time → Except String Unit)
    (r : AnalyticsRecord) : Sent :=
  (buildEvent cfg r, r.TimeStamp, doSend (buildEvent cfg r) r.TimeStamp)

/-- The loop of `WriteData` (`splunk.go` lines 147-195): left-to-right
over the batch, carrying the `Send` calls performed so far.  The type
assertion `v.(analytics.AnalyticsRecord)` on line 148 panics on any other
element; a panic aborts the loop, and the `Except.error` result carries
the calls performed before it together with the offending type name.
Normal completion carries the calls and the returned error, `nil` on
line 196. -/
def writeDataAux (cfg : SplunkPumpConfig)
    (doSend : EventMap → Time → Except String Unit) (acc : List Sent) :
    List BatchElem → Except (List Sent × String) (List Sent × Option GoError)
  | [] => Except.ok (acc.reverse, none)
  | BatchElem.record r :: rest =>
    writeDataAux cfg doSend (sentOf cfg doSend r :: acc) rest
  | BatchElem.other tn :: _ => Except.error (acc.reverse, tn)

/-- `SplunkPump.WriteData` (`splunk.go` lines 143-197), with the transport
layer abstracted by `doSend`. -/
def WriteData (cfg : SplunkPumpConfig)
    (doSend : EventMap → Time → Except String Unit) (data : List BatchElem) :
    Except (List Sent × String) (List Sent × Option GoError) :=
  writeDataAux cfg doSend [] data

/-! Concrete fixtures used to evaluate the embedded code at specific
inputs (counterexamples, code-bug evaluations, witnesses). -/

/-- A concrete analytics record (API key of length 10). -/
def recEx : AnalyticsRecord :=
  { Method := "GET", Path := "/x", ResponseCode := 200, APIKey := "1234567890"
  , TimeStamp := { sec := 1700000000, nsec := 500 }, APIVersion := "v1"
  , APIName := "orders", APIID := "api-1", OrgID := "org-1", OauthID := "oauth-1"
  , RawRequest := "R0VU", RequestTime := 7, RawResponse := "T0s=", IPAddress := "10.0.0.1" }

/-- A concrete pump configuration with an explicit field list containing a
registry name and an unknown name. -/
def cfgFieldsEx : SplunkPumpConfig :=
  { CollectorToken := "tok", CollectorURL := "https://h:8088"
  , SSLInsecureSkipVerify := true, SSLCertFile := "", SSLKeyFile := ""
  , SSLServerName := "", ObfuscateAPIKeys := false, ObfuscateAPIKeysLength := 4
  , Fields := ["method", "bogus"] }

/-- The configuration of spec example 2: `fields=["api_key"]`,
obfuscation on, suffix length 4. -/
def cfgObfEx : SplunkPumpConfig :=
  { cfgFieldsEx with ObfuscateAPIKeys := true, Fields := ["api_key"] }

/-- A configuration with an empty field list (default projection), with
obfuscation switched on to exercise that it is ignored there. -/
def cfgEmptyEx : SplunkPumpConfig :=
  { cfgFieldsEx with ObfuscateAPIKeys := true, Fields := [] }

/-- A second configuration with the same projection parameters as
`cfgEmptyEx` but a different token, for the determinism witness. -/
def cfgEmptyEx' : SplunkPumpConfig :=
  { cfgEmptyEx with CollectorToken := "other-token" }

/-- The empty initial global state: `http.DefaultClient.Transport` is
`nil`. -/
def s0 : GoHeapState := { defaultTransport := none }

/-- A concrete environment whose URL parser accepts everything (with path
`/old`) and whose certificate loader succeeds with certificate `certB`. -/
def env0 : GoEnv :=
  { urlParse := fun _ =>
      Except.ok { scheme := "https", host := "h:8088", path := "/old", rawQuery := "" }
  , loadX509KeyPair := fun _ _ => Except.ok "certB" }

/-- A concrete environment whose URL parser accepts everything and whose
certificate loader fails (missing certificate file). -/
def envNoCert : GoEnv :=
  { env0 with loadX509KeyPair := fun _ _ => Except.error "open cert.pem: no such file" }

/-- Global state after the first construction in the shared-transport
counterexample (skip-verify transport installed). -/
def sA : GoHeapState :=
  { defaultTransport := some { tlsClientConfig :=
      { insecureSkipVerify := true, certificates := [], serverName := "" } } }

/-- The client produced by the first construction in the shared-transport
counterexample. -/
def cA : SplunkClient :=
  { Token := "tok"
  , CollectorURL := { scheme := "https", host := "h:8088", path := defaultPath, rawQuery := "" }
  , TLSSkipVerify := false, httpClient := HttpClientRef.defaultClient }

/-- Global state after the second construction in the shared-transport
counterexample (mutual-TLS transport installed). -/
def sB : GoHeapState :=
  { defaultTransport := some { tlsClientConfig :=
      { insecureSkipVerify := false, certificates := ["certB"], serverName := "sn" } } }

/-- The client produced by the second construction in the shared-transport
counterexample. -/
def cB : SplunkClient :=
  { cA with Token := "tok2" }

/-! Helper lemmas. -/

/-- Unrolling the `WriteData` loop over a prefix of well-typed records:
each record contributes exactly one `Send` call, in input order. -/
theorem writeDataAux_records (cfg : SplunkPumpConfig)
    (doSend : EventMap → Time → Except String Unit) (recs : List AnalyticsRecord) :
    ∀ acc : List Sent,
      writeDataAux cfg doSend acc (recs.map BatchElem.record)
        = Except.ok (acc.reverse ++ recs.map (sentOf cfg doSend), none) := by
  induction recs with
  | nil => intro acc; simp [writeDataAux]
  | cons r rs ih =>
    intro acc
    simp [writeDataAux, ih, List.reverse_cons, List.append_assoc]

/-- Unrolling the `WriteData` loop up to the first element that is not an
`AnalyticsRecord`: the loop aborts there, having sent exactly the prefix. -/
theorem writeDataAux_panic (cfg : SplunkPumpConfig)
    (doSend : EventMap → Time → Except String Unit) (tn : String)
    (post : List BatchElem) (pre : List AnalyticsRecord) :
    ∀ acc : List Sent,
      writeDataAux cfg doSend acc
          (pre.map BatchElem.record ++ BatchElem.other tn :: post)
        = Except.error (acc.reverse ++ pre.map (sentOf cfg doSend), tn) := by
  induction pre with
  | nil => intro acc; simp [writeDataAux]
  | cons r rs ih =>
    intro acc
    simp [writeDataAux, ih, List.reverse_cons, List.append_assoc]

/-- `tlsSetup` fails exactly when verification is on and the certificate
pair does not load. -/
theorem tlsSetup_error_iff (env : GoEnv) (sv : Bool) (cf kf sn : String) :
    (∃ e, tlsSetup env sv cf kf sn = Except.error e) ↔
      (sv = false ∧ ∃ e, env.loadX509KeyPair cf kf = Except.error e) := by
  cases sv with
  | false =>
    cases h : env.loadX509KeyPair cf kf with
    | error e => simp [tlsSetup, h]
    | ok cert => simp [tlsSetup, h]
  | true => simp [tlsSetup]

/-! Claim theorems. -/

/-- **C3.** For every batch whose elements are all analytics records, and
for every behavior of the transport layer, `WriteData` performs one `Send`
per record (in order, with each call's outcome discarded) and returns the
`nil` error: per-item send outcomes are never aggregated into the returned
error. -/
theorem writeData_returns_no_error (cfg : SplunkPumpConfig)
    (doSend : EventMap → Time → Except String Unit) (recs : List AnalyticsRecord) :
    WriteData cfg doSend (recs.map BatchElem.record)
      = Except.ok (recs.map (sentOf cfg doSend), none) := by
  simpa [WriteData] using writeDataAux_records cfg doSend recs []

/-- **C10.** A batch whose first non-record element has dynamic type `tn`
makes `WriteData` panic at the type assertion: the result is the panic
carrying `tn`, the records before the offender are each transformed and
sent, and nothing after the offender is processed. -/
theorem writeData_panics_on_non_record (cfg : SplunkPumpConfig)
    (doSend : EventMap → Time → Except String Unit) (pre : List AnalyticsRecord)
    (tn : String) (post : List BatchElem) :
    WriteData cfg doSend (pre.map BatchElem.record ++ BatchElem.other tn :: post)
      = Except.error (pre.map (sentOf cfg doSend), tn) := by
  simpa [WriteData] using writeDataAux_panic cfg doSend tn post pre []

/-- **C1** (divergence evaluation). With `fields = ["method", "bogus"]`,
where `"method"` is in the registry and `"bogus"` is not, the transformer
emits no entry for the registry name `"method"` and emits a `nil` entry
for the unknown name `"bogus"` — the reverse of the claimed behavior on
both counts. -/
theorem buildEvent_inverted_registry_eval :
    cfgFieldsEx.Fields = ["method", "bogus"]
    ∧ mappingHas recEx "method" = true
    ∧ mappingHas recEx "bogus" = false
    ∧ buildEvent cfgFieldsEx recEx = [("bogus", Value.nil)] := by
  refine ⟨rfl, rfl, rfl, rfl⟩

/-- **C2** (divergence evaluation).  Spec example 2:
`fields = ["api_key"]`, obfuscation enabled, suffix length 4, API key
`"1234567890"` of length 10 > 4.  The claim expects
`[("api_key", "****7890")]`; the code produces the empty event, because
`"api_key"` is in the registry and the registry hit makes the loop skip
the field before the redaction branch is reached. -/
theorem buildEvent_obfuscation_skipped_eval :
    cfgObfEx.Fields = ["api_key"]
    ∧ cfgObfEx.ObfuscateAPIKeys = true
    ∧ cfgObfEx.ObfuscateAPIKeysLength = 4
    ∧ recEx.APIKey = "1234567890"
    ∧ buildEvent cfgObfEx recEx = [] := by
  refine ⟨rfl, rfl, rfl, rfl, rfl⟩

/-- **C7.** With an empty configured field list, the produced event is
exactly the fixed fourteen-key map, each value copied verbatim from the
record — in particular `api_key` carries the record's API key unredacted,
whatever the obfuscation settings. -/
theorem buildEvent_empty_fields_default (cfg : SplunkPumpConfig)
    (r : AnalyticsRecord) (h : cfg.Fields = []) :
    buildEvent cfg r =
      [ ("method", Value.str r.Method)
      , ("path", Value.str r.Path)
      , ("response_code", Value.int r.ResponseCode)
      , ("api_key", Value.str r.APIKey)
      , ("time_stamp", Value.time r.TimeStamp)
      , ("api_version", Value.str r.APIVersion)
      , ("api_name", Value.str r.APIName)
      , ("api_id", Value.str r.APIID)
      , ("org_id", Value.str r.OrgID)
      , ("oauth_id", Value.str r.OauthID)
      , ("raw_request", Value.str r.RawRequest)
      , ("request_time", Value.int r.RequestTime)
      , ("raw_response", Value.str r.RawResponse)
      , ("ip_address", Value.str r.IPAddress) ] := by
  simp [buildEvent, h, defaultEvent]

/-- Witness for `buildEvent_empty_fields_default` at a concrete record and
a concrete configuration with obfuscation switched on. -/
theorem buildEvent_empty_fields_default_witness :
    buildEvent cfgEmptyEx recEx =
      [ ("method", Value.str "GET")
      , ("path", Value.str "/x")
      , ("response_code", Value.int 200)
      , ("api_key", Value.str "1234567890")
      , ("time_stamp", Value.time { sec := 1700000000, nsec := 500 })
      , ("api_version", Value.str "v1")
      , ("api_name", Value.str "orders")
      , ("api_id", Value.str "api-1")
      , ("org_id", Value.str "org-1")
      , ("oauth_id", Value.str "oauth-1")
      , ("raw_request", Value.str "R0VU")
      , ("request_time", Value.int 7)
      , ("raw_response", Value.str "T0s=")
      , ("ip_address", Value.str "10.0.0.1") ] :=
  buildEvent_empty_fields_default cfgEmptyEx recEx rfl

/-- **C8.** For every client, event map and timestamp, the request `Send`
constructs is a POST to the client's resolved URL whose body is
`{"time": <Unix seconds of the timestamp>, "event": <the event map>}` and
whose `authorization` header value is `"Splunk "` followed by the
client's token. -/
theorem send_request_wire_format (c : SplunkClient) (event : EventMap) (ts : Time) :
    Send c event ts =
      { method := "POST"
      , url := c.CollectorURL
      , headers := [("authorization", "Splunk " ++ c.Token)]
      , body := { time := ts.Unix, event := event } } := rfl

/-- **C9.** The event transformation is a pure function of the record and
the projection configuration alone: two configurations agreeing on the
field list, the obfuscation flag and the suffix length produce the same
event on every record, whatever their other settings. -/
theorem buildEvent_deterministic (cfg cfg' : SplunkPumpConfig) (r : AnalyticsRecord)
    (hf : cfg.Fields = cfg'.Fields)
    (ho : cfg.ObfuscateAPIKeys = cfg'.ObfuscateAPIKeys)
    (hl : cfg.ObfuscateAPIKeysLength = cfg'.ObfuscateAPIKeysLength) :
    buildEvent cfg r = buildEvent cfg' r := by
  cases cfg; cases cfg'
  dsimp only at hf ho hl
  subst hf; subst ho; subst hl
  rfl

/-- Witness for `buildEvent_deterministic`: two configurations differing
only in the collector token produce the same event on `recEx`. -/
theorem buildEvent_deterministic_witness :
    buildEvent cfgEmptyEx recEx = buildEvent cfgEmptyEx' recEx :=
  buildEvent_deterministic cfgEmptyEx cfgEmptyEx' recEx rfl rfl rfl

/-- **C4** (counterexample).  Constructing a first client with a
skip-verify TLS configuration and then a second client with a
certificate-based TLS configuration changes the transport used by the
first client: both clients store the shared `http.DefaultClient`, whose
transport the second construction overwrites. -/
theorem newSplunkClient_transport_interference :
    NewSplunkClient env0 "tok" "https://h:8088/old" true "" "" "" s0
      = (sA, Except.ok cA)
    ∧ NewSplunkClient env0 "tok2" "https://h2" false "cf" "kf" "sn" sA
      = (sB, Except.ok cB)
    ∧ effectiveTransport sA cA ≠ effectiveTransport sB cA := by
  refine ⟨rfl, rfl, by decide⟩

/-- **C4** (amended).  Every successful construction stores the shared
default HTTP client in the new client and overwrites the global default
transport with the newly computed TLS configuration; consequently any
previously constructed client (which also holds the shared default
client) now uses the same transport as the new client. -/
theorem newSplunkClient_shared_default_client (env : GoEnv) (t u : String)
    (sv : Bool) (cf kf sn : String) (s s' : GoHeapState) (c cPrev : SplunkClient)
    (hc : NewSplunkClient env t u sv cf kf sn s = (s', Except.ok c))
    (hPrev : cPrev.httpClient = HttpClientRef.defaultClient) :
    c.httpClient = HttpClientRef.defaultClient
    ∧ effectiveTransport s' cPrev = effectiveTransport s' c
    ∧ ∃ tc, tlsSetup env sv cf kf sn = Except.ok tc
        ∧ s' = { defaultTransport := some { tlsClientConfig := tc } } := by
  unfold NewSplunkClient at hc
  split at hc
  · simp at hc
  · split at hc
    · simp at hc
    · split at hc
      · simp at hc
      · rename_i u' hu' tc htc
        simp only [Prod.mk.injEq, Except.ok.injEq] at hc
        obtain ⟨hs, hcl⟩ := hc
        subst hs; subst hcl
        exact ⟨rfl, by simp [effectiveTransport, hPrev], tc, htc, rfl⟩

/-- Witness for `newSplunkClient_shared_default_client`: the second
construction of the interference scenario, with the first client as the
previously constructed one. -/
theorem newSplunkClient_shared_default_client_witness :
    cB.httpClient = HttpClientRef.defaultClient
    ∧ effectiveTransport sB cA = effectiveTransport sB cB
    ∧ ∃ tc, tlsSetup env0 false "cf" "kf" "sn" = Except.ok tc
        ∧ sB = { defaultTransport := some { tlsClientConfig := tc } } :=
  newSplunkClient_shared_default_client env0 "tok2" "https://h2" false "cf" "kf" "sn"
    sA sB cB cA rfl rfl

/-- **C5.** `NewSplunkClient` returns an error exactly when the token is
empty, the collector URL is empty, the URL fails to parse, or
verification is enabled and the certificate pair fails to load; the error
result carries no client. -/
theorem newSplunkClient_error_iff (env : GoEnv) (t u : String) (sv : Bool)
    (cf kf sn : String) (s : GoHeapState) :
    (∃ e, (NewSplunkClient env t u sv cf kf sn s).2 = Except.error e) ↔
      (t = "" ∨ u = "" ∨ (∃ e, env.urlParse u = Except.error e)
        ∨ (sv = false ∧ ∃ e, env.loadX509KeyPair cf kf = Except.error e)) := by
  rw [← tlsSetup_error_iff env sv cf kf sn]
  by_cases h1 : t = "" ∨ u = ""
  · simp [NewSplunkClient, h1]
    tauto
  · push_neg at h1
    cases hp : env.urlParse u with
    | error e => simp [NewSplunkClient, h1.1, h1.2, hp]
    | ok pu =>
      cases hts : tlsSetup env sv cf kf sn with
      | error e => simp [NewSplunkClient, h1.1, h1.2, hp, hts]
      | ok tc => simp [NewSplunkClient, h1.1, h1.2, hp, hts]

/-- **C6** (counterexample).  A non-empty token together with a non-empty,
parseable collector URL does not suffice for `NewSplunkClient` to
succeed: with verification enabled and an unloadable certificate pair the
construction fails. -/
theorem newSplunkClient_fails_despite_valid_pair :
    envNoCert.urlParse "https://h:8088/old"
      = Except.ok { scheme := "https", host := "h:8088", path := "/old", rawQuery := "" }
    ∧ NewSplunkClient envNoCert "tok" "https://h:8088/old" false "cert.pem" "key.pem" "" s0
      = (s0, Except.error (GoError.tlsError "open cert.pem: no such file")) := by
  refine ⟨rfl, rfl⟩

/-- **C6** (amended).  For every non-empty token and non-empty, parseable
collector URL, provided the TLS step succeeds (skip-verify is enabled, or
the certificate pair loads), `NewSplunkClient` succeeds and the resolved
URL stored in the client has path `/services/collector/event/1.0`,
regardless of the path component of the input URL. -/
theorem newSplunkClient_path_fixed (env : GoEnv) (t u : String) (sv : Bool)
    (cf kf sn : String) (s : GoHeapState) (pu : URL)
    (ht : t ≠ "") (hu : u ≠ "") (hp : env.urlParse u = Except.ok pu)
    (htls : sv = true ∨ ∃ cert, env.loadX509KeyPair cf kf = Except.ok cert) :
    ∃ s' c, NewSplunkClient env t u sv cf kf sn s = (s', Except.ok c)
      ∧ c.CollectorURL.path = defaultPath := by
  have htc : ∃ tc, tlsSetup env sv cf kf sn = Except.ok tc := by
    cases sv with
    | true =>
      exact ⟨{ insecureSkipVerify := true, certificates := [], serverName := "" },
        by simp [tlsSetup]⟩
    | false =>
      rcases htls with h | ⟨cert, h⟩
      · exact absurd h (by simp)
      · exact ⟨{ insecureSkipVerify := false, certificates := [cert], serverName := sn },
          by simp [tlsSetup, h]⟩
  obtain ⟨tc, htc⟩ := htc
  refine ⟨{ defaultTransport := some { tlsClientConfig := tc } },
    { Token := t, CollectorURL := { pu with path := defaultPath }
    , TLSSkipVerify := false, httpClient := HttpClientRef.defaultClient }, ?_, rfl⟩
  simp [NewSplunkClient, ht, hu, hp, htc]

/-- Witness for `newSplunkClient_path_fixed`: a concrete valid pair with
skip-verify enabled, where the input URL's path is `/old`. -/
theorem newSplunkClient_path_fixed_witness :
    ∃ s' c, NewSplunkClient env0 "tok" "https://h:8088/old" true "" "" "" s0
      = (s', Except.ok c) ∧ c.CollectorURL.path = defaultPath :=
  newSplunkClient_path_fixed env0 "tok" "https://h:8088/old" true "" "" "" s0
    { scheme := "https", host := "h:8088", path := "/old", rawQuery := "" }
    (by decide) (by decide) rfl (Or.inl rfl)

end Splunk
